import Mathlib

/-!
Verification of the Clipper transaction-PDF parsing core
(package `clipper`: `findPositionIdx`, `howManyTabs`, `extractText`,
`parseLine`, `getCSV`, `ParsePDF`).

Go strings are modelled as `List Char` (the relevant data is ASCII, and
Go indexes bytes only through `strings` helpers here).  Go `float64`
coordinates are modelled as `ℚ`: every comparison performed by the code
is against fixed decimal constants, so the rational model is exact.
Panics (`findPositionIdx`, `howManyTabs`) and returned errors are both
made explicit in result types.
-/

namespace Clipper

/-- Go strings, modelled as character lists. -/
abbrev GoString := List Char

/-- Shorthand for embedding a Lean string literal as a Go string. -/
def str (s : String) : GoString := s.data

/-- Go `strings.Split(s, sep)` for a one-character separator:
splits around every occurrence; the empty string yields `[""]`. -/
def splitOnChar (sep : Char) : GoString → List GoString
  | [] => [[]]
  | c :: rest =>
    match splitOnChar sep rest with
    | [] => [[]]
    | h :: t => if c = sep then [] :: h :: t else (c :: h) :: t

/-- Go `strings.Contains(s, substr)`: `sub` occurs as a contiguous
substring of `s`. -/
def goContains (s sub : GoString) : Bool :=
  match s with
  | [] => sub.isEmpty
  | _ :: rest => sub.isPrefixOf s || goContains rest sub

/-- Go `strings.HasPrefix(s, pre)`. -/
def goHasPrefix (s pre : GoString) : Bool := pre.isPrefixOf s

/-- `bufio.ScanLines` drops one trailing carriage return from a line. -/
def dropCR (l : GoString) : GoString :=
  if l.getLast? = some '\r' then l.dropLast else l

/-- The sequence of tokens produced by a `bufio.Scanner` with the default
`ScanLines` split function: lines are separated by a newline, a final
newline does not produce an empty trailing token, and the empty input
produces no token. -/
def goScanLines (s : GoString) : List GoString :=
  let parts := splitOnChar '\n' s
  let parts := if parts.getLast? = some [] then parts.dropLast else parts
  parts.map dropCR

/-- Largest `int64` value. -/
def maxInt64 : Int := 9223372036854775807

/-- Smallest `int64` value. -/
def minInt64 : Int := -9223372036854775808

/-- Decimal value of a digit list, `none` on any non-digit. -/
def decValAux (acc : ℕ) : List Char → Option ℕ
  | [] => some acc
  | c :: cs =>
    if c.isDigit then decValAux (acc * 10 + (c.toNat - '0'.toNat)) cs else none

/-- Go `strconv.ParseInt(s, 10, 64)`: returns the parsed value and an ok
flag.  On a syntax error the value is `0`; on range overflow the value is
clamped to the corresponding `int64` extreme.  (Go returns `(0, ErrSyntax)`
or the clamped value with `ErrRange`.) -/
def goParseInt (s : GoString) : Int × Bool :=
  let signAndDigits : Bool × List Char :=
    match s with
    | '+' :: rest => (false, rest)
    | '-' :: rest => (true, rest)
    | _ => (false, s)
  let neg := signAndDigits.1
  let digits := signAndDigits.2
  if digits = [] then (0, false)
  else
    match decValAux 0 digits with
    | none => (0, false)
    | some v =>
      let n : Int := if neg then -(v : Int) else (v : Int)
      if n > maxInt64 then (maxInt64, false)
      else if n < minInt64 then (minInt64, false)
      else (n, true)

/-! ## Position classifier -/

/-- Column start x-coordinates, found by trial and error from the PDF
(`var positions = []float64{...}`). -/
def positions : List ℚ :=
  [28, 133.71, 359.24, 479.05, 528.38, 655.88, 685.78, 722.22]

/-- The midpoint test value used in `findPositionIdx`'s loop:
`positions[i] + (positions[i+1]-positions[i])/2`. -/
def halfway (i : ℕ) : ℚ :=
  positions.getD i 0 + (positions.getD (i + 1) 0 - positions.getD i 0) / 2

/-- The loop `for i := 0; i < len(positions)-1; i++` in `findPositionIdx`:
returns the first `i < 7` with `pos < halfway i`, and `7` if none exists. -/
def posLoop (pos : ℚ) (i : ℕ) : ℕ :=
  if h : i < 7 then
    if pos < halfway i then i else posLoop pos (i + 1)
  else 7
termination_by 7 - i
decreasing_by omega

/-- `findPositionIdx`: maps an x-coordinate to a column slot `0..7`.
`none` models the Go panic on a coordinate outside `[0, 1100]`. -/
def findPositionIdx (pos : ℚ) : Option ℕ :=
  if pos < 0 ∨ pos > 1100 then none
  else if pos ≤ positions.getD 0 0 then some 0
  else if pos ≥ positions.getD 7 0 then some 7
  else some (posLoop pos 0)

/-- `howManyTabs(prevPos, curPos)`: number of tab characters between two
x-coordinates.  `none` models the two panics (`prevPos >= curPos`, or a
coordinate outside `[0, 1100]` inside `findPositionIdx`). -/
def howManyTabs (prevPos curPos : ℚ) : Option ℤ :=
  if prevPos ≥ curPos then none
  else
    match findPositionIdx prevPos, findPositionIdx curPos with
    | some idx, some idx2 => some ((idx2 : ℤ) - (idx : ℤ))
    | _, _ => none

/-! ## Text reconstructor (`extractText`) -/

/-- Typed PDF operands, mirroring the `unidoc` `core.PdfObject*` types a
content-stream operator can carry.  `PdfName`, `PdfBool` and `PdfNull`
stand for the operand types that match none of the cases the code
inspects. -/
inductive PdfObject where
  | PdfString (s : GoString)
  | PdfInt (n : ℤ)
  | PdfFloat (q : ℚ)
  | PdfArray (elems : List PdfObject)
  | PdfName (s : GoString)
  | PdfBool (b : Bool)
  | PdfNull

/-- One decoded content-stream operation: operator name plus operands. -/
structure Operation where
  operand : String
  params : List PdfObject

/-- The mutable cursor state of `extractText`'s loop: `xPos`, `yPos`
(both seeded with the sentinel `-1`), the `inText` flag and the
accumulated output `txt`. -/
structure TextState where
  xPos : ℚ
  yPos : ℚ
  inText : Bool
  txt : GoString

/-- Initial cursor state at the top of `extractText`. -/
def initTextState : TextState :=
  { xPos := -1, yPos := -1, inText := false, txt := [] }

/-- Errors surfaced by the text reconstructor: the two returned
`fmt.Errorf` values, plus the `findPositionIdx` panic reached through
`howManyTabs` (modelled as an error since it aborts the parse). -/
inductive ExtractError where
  | invalidTJParam (obj : PdfObject)
  | invalidTjParam (obj : PdfObject)
  | invalidPos

/-- The numeric value of a `Tm` operand: a float is taken as is, an
integer is converted to float, anything else is rejected. -/
def tmNum : PdfObject → Option ℚ
  | .PdfFloat q => some q
  | .PdfInt n => some (n : ℚ)
  | _ => none

/-- Processing of one element of a `TJ` operand array (the `switch` in
`extractText`): strings are appended verbatim; a numeric adjustment
strictly below `-100` appends one space; any other element type falls
through the `switch` with no effect. -/
def tjItem (txt : GoString) : PdfObject → GoString
  | .PdfString s => txt ++ s
  | .PdfFloat q => if q < -100 then txt ++ [' '] else txt
  | .PdfInt n => if n < -100 then txt ++ [' '] else txt
  | _ => txt

/-- The `Tm` branch of `extractText`'s loop. -/
def stepTm (st : TextState) (params : List PdfObject) :
    Except ExtractError TextState :=
  if params.length ≠ 6 then .ok st
  else
    match tmNum (params.getD 4 .PdfNull), tmNum (params.getD 5 .PdfNull) with
    | some x, some y =>
      if st.yPos = -1 then
        let st1 : TextState := { st with yPos := y }
        if st1.xPos = -1 then .ok { st1 with xPos := x }
        else if st1.xPos < x then
          match howManyTabs st1.xPos x with
          | some numTabs =>
            .ok { st1 with txt := st1.txt ++ List.replicate numTabs.toNat '\t',
                           xPos := x }
          | none => .error .invalidPos
        else .ok st1
      else if st.yPos > y then
        .ok { st with txt := st.txt ++ ['\n'], xPos := x, yPos := y }
      else
        if st.xPos = -1 then .ok { st with xPos := x }
        else if st.xPos < x then
          match howManyTabs st.xPos x with
          | some numTabs =>
            .ok { st with txt := st.txt ++ List.replicate numTabs.toNat '\t',
                          xPos := x }
          | none => .error .invalidPos
        else .ok st
    | _, _ => .ok st

/-- The `TJ` branch (show text with positioning adjustments), reached
only inside a text block: a missing operand is skipped, a non-array
first operand is a fatal error, and otherwise the array's elements are
folded with `tjItem`. -/
def stepTJ (st : TextState) (params : List PdfObject) :
    Except ExtractError TextState :=
  if params.length < 1 then .ok st
  else
    match params.getD 0 .PdfNull with
    | .PdfArray elems => .ok { st with txt := elems.foldl tjItem st.txt }
    | obj => .error (.invalidTJParam obj)

/-- The `Tj` branch (show text), reached only inside a text block: a
missing operand is skipped and a non-string first operand is a fatal
error. -/
def stepTj (st : TextState) (params : List PdfObject) :
    Except ExtractError TextState :=
  if params.length < 1 then .ok st
  else
    match params.getD 0 .PdfNull with
    | .PdfString s => .ok { st with txt := st.txt ++ s }
    | obj => .error (.invalidTjParam obj)

/-- One iteration of `extractText`'s loop over operations.  The branches
of the Go loop test disjoint operator names, so they are rendered as a
name dispatch. -/
def extractStep (st : TextState) (op : Operation) :
    Except ExtractError TextState :=
  if op.operand = "BT" then .ok { st with inText := true }
  else if op.operand = "ET" then .ok { st with inText := false }
  else if op.operand = "Tm" then stepTm st op.params
  else if op.operand = "Td" ∨ op.operand = "TD" ∨ op.operand = "T*" then
    .ok { st with txt := st.txt ++ ['\n'] }
  else if op.operand = "TJ" then
    if st.inText then stepTJ st op.params else .ok st
  else if op.operand = "Tj" then
    if st.inText then stepTj st op.params else .ok st
  else .ok st

/-- `extractText`: folds the operation stream from the initial cursor
state and returns the accumulated text. -/
def extractText (operations : List Operation) : Except ExtractError GoString :=
  (operations.foldlM extractStep initTextState).map TextState.txt

example : splitOnChar '\t' (str "a\tb") = [str "a", str "b"] := by decide
example :
    extractText [⟨"BT", []⟩, ⟨"TJ", [.PdfArray [.PdfString (str "AB"),
      .PdfFloat (-150), .PdfString (str "CD")]]⟩] = .ok (str "AB CD") := rfl
example :
    extractText [⟨"BT", []⟩, ⟨"TJ", [.PdfArray [.PdfString (str "AB"),
      .PdfFloat (-50), .PdfString (str "CD")]]⟩] = .ok (str "ABCD") := rfl
example :
    extractText [⟨"BT", []⟩, ⟨"TJ", [.PdfInt 3]⟩] =
      .error (.invalidTJParam (.PdfInt 3)) := rfl
example :
    extractText [⟨"BT", []⟩, ⟨"TJ", [.PdfArray [.PdfName (str "F1")]]⟩] =
      .ok [] := rfl
example : goScanLines (str "a\n\nb") = [str "a", [], str "b"] := by decide
example : goParseInt (str "1234567890") = (1234567890, true) := by decide
example : goParseInt (str "") = (0, false) := by decide

/-! ## Record parser (`parseLine`) -/

/-- Result of `parseLine`: the end-of-table sentinel (`io.EOF`), the
fatal invalid-line error carrying the offending raw line, or the eight
tab-split fields. -/
inductive ParseLineResult where
  | eof
  | err (line : GoString)
  | fields (parts : List GoString)

/-- The disclaimer substring that marks trailing boilerplate. -/
def disclaimerMarker : GoString :=
  str "If there is a discrepancy in the listing of the card balance"

/-- The page-footer substring. -/
def pageMarker : GoString := str "Page "

/-- `parseLine`: tab-split a reconstructed text line, recognising the
two end-of-table sentinels and rejecting any other non-8-field line. -/
def parseLine (text : GoString) : ParseLineResult :=
  let parts := splitOnChar '\t' text
  if parts.length = 8 ∧ parts.getD 1 [] = [] ∧ parts.getD 2 [] = [] ∧
      parts.getD 3 [] = [] ∧ goContains (parts.getD 7 []) pageMarker then
    .eof
  else if parts.length < 8 ∧ goContains (parts.getD 0 []) disclaimerMarker then
    .eof
  else if parts.length ≠ 8 then .err text
  else .fields parts

/-- The fixed literal header row (`var recordHeader`). -/
def recordHeader : List GoString :=
  [str "Date", str "Transaction Type", str "Location", str "Route",
   str "Product", str "Debit", str "Credit", str "Balance"]

/-! ## Table assembler (`getCSV`) -/

/-- The inner record loop of `getCSV` over one page's remaining lines:
each line goes through `parseLine`; the sentinel breaks out of the loop
keeping the accumulated records, an invalid line aborts with that line,
and a field row is appended. -/
def processLines (acc : List (List GoString)) :
    List GoString → Except GoString (List (List GoString))
  | [] => .ok acc
  | t :: rest =>
    match parseLine t with
    | .eof => .ok acc
    | .err l => .error l
    | .fields parts => processLines (acc ++ [parts]) rest

/-- The `line == 1` branch of `getCSV` on the first page: the account
number stays at the `-1` sentinel unless the line has the `CARD ` prefix
and splits on spaces into exactly two tokens, in which case it is
whatever `strconv.ParseInt` returns for the second token (also on a
failed parse, where only a warning is logged). -/
def page0Num (lines : List GoString) : Int :=
  match lines.getD 1 [] , lines.length with
  | _, 0 => -1
  | _, 1 => -1
  | l1, _ =>
    if goHasPrefix l1 (str "CARD ") then
      let parts := splitOnChar ' ' l1
      if parts.length = 2 then (goParseInt (parts.getD 1 [])).1 else -1
    else -1

/-- The loop of `getCSV` over pages after the first: line 0 is the
repeated per-page column header (checked only with a warning), the rest
feed the record loop. -/
def getCSVRest (num : Int) (acc : List (List GoString)) :
    List GoString → Except (Int × GoString) (Int × List (List GoString))
  | [] => .ok (num, acc)
  | p :: ps =>
    match processLines acc ((goScanLines p).drop 1) with
    | .error t => .error (num, t)
    | .ok acc2 => getCSVRest num acc2 ps

/-- `getCSV`: assembles the transaction table from the per-page text.
The first page's lines 0-2 are structural metadata (title, `CARD` line,
column header), later pages start with one header line; all remaining
lines feed the record loop.  The error carries the account number and
the offending line (`return num, nil, err`). -/
def getCSV (pages : List GoString) :
    Except (Int × GoString) (Int × List (List GoString)) :=
  match pages with
  | [] => .ok (-1, [recordHeader])
  | p0 :: rest =>
    let ls := goScanLines p0
    let num := page0Num ls
    match processLines [recordHeader] (ls.drop 3) with
    | .error t => .error (num, t)
    | .ok acc => getCSVRest num acc rest

/-- Records of one page's data lines in encountered order: the
`parseLine`-validated rows of the line list up to the first sentinel or
invalid line.  (Spec-side description of the accumulation order, proved
to coincide with `getCSV`'s output.) -/
def collectPage : List GoString → List (List GoString)
  | [] => []
  | t :: rest =>
    match parseLine t with
    | .fields parts => parts :: collectPage rest
    | _ => []

/-- All records of a document in encountered order: the first page's
rows (after its three metadata lines) before later pages' rows (after
their one header line), each page in line order.  (Spec-side description
used for the ordering claim.) -/
def encounteredRecords : List GoString → List (List GoString)
  | [] => []
  | p0 :: rest =>
    collectPage ((goScanLines p0).drop 3) ++
      (rest.map (fun p => collectPage ((goScanLines p).drop 1))).flatten

/-! ## `ParsePDF` -/

/-- The value returned to callers: account number and transaction
records. -/
structure TransactionData where
  accountNumber : Int
  transactions : List (List GoString)

/-- The zero `TransactionData` value (`TransactionData{}` in Go). -/
def zeroTransactionData : TransactionData :=
  { accountNumber := 0, transactions := [] }

/-- Errors surfaced by `ParsePDF`: a failure of the upstream extraction
stage (PDF reading, content-stream parsing or character decoding,
abstracted as `ε`), or a table-assembly failure from `getCSV`. -/
inductive ParsePDFError (ε : Type) where
  | extract (e : ε)
  | table (num : Int) (line : GoString)

/-- `ParsePDF`, as a function of the outcome of the extraction stage
(`extractPDFText`, whose PDF-reading internals live in the external
`unidoc` library): on any stage error it returns the zero
`TransactionData` together with the error; on success it packages the
account number and records from `getCSV`. -/
def ParsePDF {ε : Type} (extracted : Except ε (List GoString)) :
    TransactionData × Option (ParsePDFError ε) :=
  match extracted with
  | .error e => (zeroTransactionData, some (.extract e))
  | .ok pages =>
    match getCSV pages with
    | .error (num, line) => (zeroTransactionData, some (.table num line))
    | .ok (num, records) =>
      ({ accountNumber := num, transactions := records }, none)

example : parseLine (str "a\tb\tc\td\te\tf\tg\th") =
    .fields [str "a", str "b", str "c", str "d", str "e", str "f",
      str "g", str "h"] := rfl
example : parseLine (str "a\t\t\t\tb\tc\td\tPage 2 of 3") = .eof := rfl
example : parseLine (str "\t\t\tX\tY\tZ\tW\tPage 2 of 3") =
    .fields [[], [], [], str "X", str "Y", str "Z", str "W",
      str "Page 2 of 3"] := rfl
example : parseLine (str "ab\tcd") = .err (str "ab\tcd") := rfl
example :
    getCSV [str "TRANSACTION HISTORY FOR\nCARD 1234567890\nTRANSACTION TYPE\tLOCATION\tROUTE\na\tb\tc\td\te\tf\tg\th"]
      = .ok (1234567890, [recordHeader,
          [str "a", str "b", str "c", str "d", str "e", str "f", str "g",
            str "h"]]) := rfl
example :
    getCSV [str "TRANSACTION HISTORY FOR\nCARD \nTRANSACTION TYPE\tLOCATION\tROUTE"]
      = .ok (0, [recordHeader]) := rfl

/-! ## Lemmas about the position classifier -/

lemma halfway_zero : halfway 0 = 80.855 := by
  have h : halfway 0 = 28 + (133.71 - 28) / 2 := rfl
  rw [h]; norm_num

lemma halfway_one : halfway 1 = 246.475 := by
  have h : halfway 1 = 133.71 + (359.24 - 133.71) / 2 := rfl
  rw [h]; norm_num

lemma halfway_two : halfway 2 = 419.145 := by
  have h : halfway 2 = 359.24 + (479.05 - 359.24) / 2 := rfl
  rw [h]; norm_num

lemma halfway_three : halfway 3 = 503.715 := by
  have h : halfway 3 = 479.05 + (528.38 - 479.05) / 2 := rfl
  rw [h]; norm_num

lemma halfway_four : halfway 4 = 592.13 := by
  have h : halfway 4 = 528.38 + (655.88 - 528.38) / 2 := rfl
  rw [h]; norm_num

lemma halfway_five : halfway 5 = 670.83 := by
  have h : halfway 5 = 655.88 + (685.78 - 655.88) / 2 := rfl
  rw [h]; norm_num

lemma halfway_six : halfway 6 = 704 := by
  have h : halfway 6 = 685.78 + (722.22 - 685.78) / 2 := rfl
  rw [h]; norm_num

lemma posLoop_step (pos : ℚ) (i : ℕ) (h : i < 7) :
    posLoop pos i = if pos < halfway i then i else posLoop pos (i + 1) := by
  rw [posLoop]
  rw [dif_pos h]

lemma posLoop_last (pos : ℚ) : posLoop pos 7 = 7 := by
  rw [posLoop]
  rw [dif_neg (by omega)]

lemma posLoop_zero_eq (pos : ℚ) :
    posLoop pos 0 =
      if pos < 80.855 then 0
      else if pos < 246.475 then 1
      else if pos < 419.145 then 2
      else if pos < 503.715 then 3
      else if pos < 592.13 then 4
      else if pos < 670.83 then 5
      else if pos < 704 then 6
      else 7 := by
  have e0 := posLoop_step pos 0 (by omega)
  have e1 := posLoop_step pos 1 (by omega)
  have e2 := posLoop_step pos 2 (by omega)
  have e3 := posLoop_step pos 3 (by omega)
  have e4 := posLoop_step pos 4 (by omega)
  have e5 := posLoop_step pos 5 (by omega)
  have e6 := posLoop_step pos 6 (by omega)
  rw [halfway_zero] at e0
  rw [halfway_one] at e1
  rw [halfway_two] at e2
  rw [halfway_three] at e3
  rw [halfway_four] at e4
  rw [halfway_five] at e5
  rw [halfway_six] at e6
  rw [e0]
  rw [show posLoop pos (0 + 1) = posLoop pos 1 from rfl, e1]
  rw [show posLoop pos (1 + 1) = posLoop pos 2 from rfl, e2]
  rw [show posLoop pos (2 + 1) = posLoop pos 3 from rfl, e3]
  rw [show posLoop pos (3 + 1) = posLoop pos 4 from rfl, e4]
  rw [show posLoop pos (4 + 1) = posLoop pos 5 from rfl, e5]
  rw [show posLoop pos (5 + 1) = posLoop pos 6 from rfl, e6]
  rw [show posLoop pos (6 + 1) = posLoop pos 7 from rfl, posLoop_last]

lemma posLoop_zero_le (pos : ℚ) : posLoop pos 0 ≤ 7 := by
  rw [posLoop_zero_eq]
  split_ifs <;> omega

set_option maxHeartbeats 1600000 in
lemma posLoop_zero_mono {p q : ℚ} (h : p ≤ q) :
    posLoop p 0 ≤ posLoop q 0 := by
  rw [posLoop_zero_eq, posLoop_zero_eq]
  split_ifs <;> first | omega | (exfalso; linarith)

lemma findPositionIdx_in_range (pos : ℚ) (h0 : 0 ≤ pos) (h1 : pos ≤ 1100) :
    findPositionIdx pos = some (posLoop pos 0) := by
  unfold findPositionIdx
  rw [if_neg (by push_neg; exact ⟨h0, h1⟩)]
  by_cases h2 : pos ≤ positions.getD 0 0
  · rw [if_pos h2]
    rw [show positions.getD 0 0 = (28 : ℚ) from rfl] at h2
    rw [posLoop_zero_eq, if_pos (by linarith : pos < 80.855)]
  · rw [if_neg h2]
    by_cases h3 : pos ≥ positions.getD 7 0
    · rw [if_pos h3]
      rw [show positions.getD 7 0 = (722.22 : ℚ) from rfl] at h3
      have c722 : (704 : ℚ) < 722.22 := by norm_num
      rw [posLoop_zero_eq]
      rw [if_neg (by intro hc; linarith : ¬ pos < 80.855)]
      rw [if_neg (by intro hc; linarith : ¬ pos < 246.475)]
      rw [if_neg (by intro hc; linarith : ¬ pos < 419.145)]
      rw [if_neg (by intro hc; linarith : ¬ pos < 503.715)]
      rw [if_neg (by intro hc; linarith : ¬ pos < 592.13)]
      rw [if_neg (by intro hc; linarith : ¬ pos < 670.83)]
      rw [if_neg (by intro hc; linarith : ¬ pos < 704)]
    · rw [if_neg h3]

/-! ## Lemmas about the record parser and table assembler -/

lemma parseLine_fields {text : GoString} {ps : List GoString}
    (h : parseLine text = .fields ps) :
    ps = splitOnChar '\t' text ∧ ps.length = 8 := by
  simp only [parseLine] at h
  split_ifs at h with h1 h2 h3
  all_goals
    first
      | exact ParseLineResult.noConfusion h
      | (cases h; exact ⟨rfl, by omega⟩)

lemma collectPage_length {ls : List GoString} {r : List GoString}
    (h : r ∈ collectPage ls) : r.length = 8 := by
  induction ls with
  | nil => simp [collectPage] at h
  | cons t rest ih =>
    unfold collectPage at h
    cases hp : parseLine t with
    | eof => rw [hp] at h; simp at h
    | err l => rw [hp] at h; simp at h
    | fields parts =>
      rw [hp] at h
      rcases List.mem_cons.mp h with h4 | h4
      · subst h4; exact (parseLine_fields hp).2
      · exact ih h4

lemma processLines_ok {ls : List GoString} {acc out : List (List GoString)}
    (h : processLines acc ls = .ok out) : out = acc ++ collectPage ls := by
  induction ls generalizing acc with
  | nil =>
    unfold processLines at h
    cases h
    simp [collectPage]
  | cons t rest ih =>
    unfold processLines at h
    unfold collectPage
    cases hp : parseLine t with
    | eof => rw [hp] at h; cases h; simp
    | err l => rw [hp] at h; exact Except.noConfusion h
    | fields parts =>
      rw [hp] at h
      rw [ih h]
      simp

lemma getCSVRest_ok {ps : List GoString} {num n : Int}
    {acc recs : List (List GoString)}
    (h : getCSVRest num acc ps = .ok (n, recs)) :
    n = num ∧
      recs = acc ++
        (ps.map (fun p => collectPage ((goScanLines p).drop 1))).flatten := by
  induction ps generalizing acc with
  | nil =>
    unfold getCSVRest at h
    cases h
    simp
  | cons p rest ih =>
    unfold getCSVRest at h
    cases hp : processLines acc ((goScanLines p).drop 1) with
    | error t => rw [hp] at h; exact Except.noConfusion h
    | ok acc2 =>
      rw [hp] at h
      obtain ⟨hn, hrecs⟩ := ih h
      refine ⟨hn, ?_⟩
      rw [hrecs, processLines_ok hp]
      simp

lemma getCSV_ok_records {pages : List GoString} {n : Int}
    {recs : List (List GoString)} (h : getCSV pages = .ok (n, recs)) :
    recs = recordHeader :: encounteredRecords pages := by
  cases pages with
  | nil =>
    simp only [getCSV] at h
    cases h
    simp [encounteredRecords]
  | cons p0 rest =>
    simp only [getCSV] at h
    cases hp : processLines [recordHeader] ((goScanLines p0).drop 3) with
    | error t => rw [hp] at h; exact Except.noConfusion h
    | ok acc =>
      rw [hp] at h
      obtain ⟨-, hrecs⟩ := getCSVRest_ok h
      rw [hrecs, processLines_ok hp]
      simp [encounteredRecords]

lemma encounteredRecords_length {pages : List GoString} {r : List GoString}
    (h : r ∈ encounteredRecords pages) : r.length = 8 := by
  cases pages with
  | nil => simp [encounteredRecords] at h
  | cons p0 rest =>
    unfold encounteredRecords at h
    rcases List.mem_append.mp h with h1 | h1
    · exact collectPage_length h1
    · obtain ⟨l, hl, hr⟩ := List.mem_flatten.mp h1
      obtain ⟨p, -, hp⟩ := List.mem_map.mp hl
      subst hp
      exact collectPage_length hr

/-! ## Claims -/

/-- C1: for every pair of coordinates `p`, `q` with `0 ≤ p < q ≤ 1100`,
`howManyTabs p q` equals `findPositionIdx q - findPositionIdx p`, and
this difference is nonnegative because `findPositionIdx` is monotone
non-decreasing on `[0, 1100]`. -/
theorem howManyTabs_eq_idx_difference (p q : ℚ)
    (hp : 0 ≤ p) (hpq : p < q) (hq : q ≤ 1100) :
    ∃ i j : ℕ, findPositionIdx p = some i ∧ findPositionIdx q = some j ∧
      i ≤ j ∧ howManyTabs p q = some ((j : ℤ) - (i : ℤ)) := by
  have hp1 : p ≤ 1100 := le_trans (le_of_lt hpq) hq
  have hq0 : 0 ≤ q := le_trans hp (le_of_lt hpq)
  refine ⟨posLoop p 0, posLoop q 0, findPositionIdx_in_range p hp hp1,
    findPositionIdx_in_range q hq0 hq, posLoop_zero_mono (le_of_lt hpq), ?_⟩
  unfold howManyTabs
  rw [if_neg (not_le.mpr hpq)]
  rw [findPositionIdx_in_range p hp hp1, findPositionIdx_in_range q hq0 hq]

/-- C1 witness: the theorem applied at the concrete pair `(100, 400)`. -/
theorem howManyTabs_eq_idx_difference_witness :
    (0 : ℚ) ≤ 100 ∧ (100 : ℚ) < 400 ∧ (400 : ℚ) ≤ 1100 ∧
      (∃ i j : ℕ, findPositionIdx 100 = some i ∧
        findPositionIdx 400 = some j ∧ i ≤ j ∧
        howManyTabs 100 400 = some ((j : ℤ) - (i : ℤ))) :=
  ⟨by decide, by decide, by decide,
    howManyTabs_eq_idx_difference 100 400 (by decide) (by decide) (by decide)⟩

/-- C8: every coordinate in `[0, positions[0]] = [0, 28]` is classified
as column 0, and every coordinate in `[positions[7], 1100] =
[722.22, 1100]` is classified as column 7. -/
theorem findPositionIdx_boundary :
    (∀ c : ℚ, 0 ≤ c → c ≤ 28 → findPositionIdx c = some 0) ∧
      (∀ c : ℚ, 722.22 ≤ c → c ≤ 1100 → findPositionIdx c = some 7) := by
  constructor
  · intro c h0 h1
    unfold findPositionIdx
    rw [if_neg (by push_neg; exact ⟨h0, by linarith⟩)]
    rw [if_pos (by rw [show positions.getD 0 0 = (28 : ℚ) from rfl]; exact h1)]
  · intro c h0 h1
    unfold findPositionIdx
    have h28 : (28 : ℚ) < 722.22 := by norm_num
    rw [if_neg (by push_neg; exact ⟨by linarith, h1⟩)]
    rw [if_neg (by rw [show positions.getD 0 0 = (28 : ℚ) from rfl]; linarith)]
    rw [if_pos (by rw [show positions.getD 7 0 = (722.22 : ℚ) from rfl]; exact h0)]

/-- C8 witness: the theorem applied at the concrete coordinates `10`
and `1000`. -/
theorem findPositionIdx_boundary_witness :
    (0 : ℚ) ≤ 10 ∧ (10 : ℚ) ≤ 28 ∧ (722.22 : ℚ) ≤ 1000 ∧
      (1000 : ℚ) ≤ 1100 ∧ findPositionIdx 10 = some 0 ∧
      findPositionIdx 1000 = some 7 :=
  ⟨by decide, by decide, by norm_num, by decide,
    findPositionIdx_boundary.1 10 (by decide) (by decide),
    findPositionIdx_boundary.2 1000 (by norm_num) (by decide)⟩

/-- C9: the classifier fails (models the fatal `InvalidCoordinate`
panic) exactly when the coordinate is strictly below 0 or strictly
above 1100, and for every in-range coordinate it returns a column index
in `0..7`. -/
theorem findPositionIdx_range_error_iff (c : ℚ) :
    (findPositionIdx c = none ↔ (c < 0 ∨ c > 1100)) ∧
      (0 ≤ c → c ≤ 1100 → ∃ i, findPositionIdx c = some i ∧ i ≤ 7) := by
  constructor
  · constructor
    · intro h
      by_contra hc
      push_neg at hc
      rw [findPositionIdx_in_range c hc.1 hc.2] at h
      exact Option.noConfusion h
    · intro h
      unfold findPositionIdx
      rw [if_pos h]
  · intro h0 h1
    exact ⟨posLoop c 0, findPositionIdx_in_range c h0 h1, posLoop_zero_le c⟩

/-- C9 witness: the theorem applied at the concrete in-range coordinate
`500` and the out-of-range coordinate `-3`. -/
theorem findPositionIdx_range_error_iff_witness :
    (0 : ℚ) ≤ 500 ∧ (500 : ℚ) ≤ 1100 ∧
      (∃ i, findPositionIdx 500 = some i ∧ i ≤ 7) ∧
      findPositionIdx (-3) = none :=
  ⟨by decide, by decide,
    (findPositionIdx_range_error_iff 500).2 (by decide) (by decide),
    (findPositionIdx_range_error_iff (-3)).1.mpr (Or.inl (by decide))⟩

/-- C2: `parseLine` returns the fatal invalid-line error, carrying the
offending raw line, exactly when the tab-split field count is not 8 and
neither sentinel pattern matches; a line that is accepted is returned
as its exact tab-split fields (never dropped, never padded). -/
theorem parseLine_invalid_iff (text : GoString) :
    (parseLine text = .err text ↔
      ((splitOnChar '\t' text).length ≠ 8 ∧
        ¬((splitOnChar '\t' text).length = 8 ∧
          (splitOnChar '\t' text).getD 1 [] = [] ∧
          (splitOnChar '\t' text).getD 2 [] = [] ∧
          (splitOnChar '\t' text).getD 3 [] = [] ∧
          goContains ((splitOnChar '\t' text).getD 7 []) pageMarker = true) ∧
        ¬((splitOnChar '\t' text).length < 8 ∧
          goContains ((splitOnChar '\t' text).getD 0 [])
            disclaimerMarker = true))) ∧
    (∀ ps, parseLine text = .fields ps →
      ps = splitOnChar '\t' text ∧ ps.length = 8) := by
  constructor
  · simp only [parseLine]
    split_ifs with h1 h2 h3
    · constructor
      · intro h
        exact h.elim
      · rintro ⟨-, hn, -⟩
        exact absurd h1 hn
    · constructor
      · intro h
        exact h.elim
      · rintro ⟨-, -, hn⟩
        exact absurd h2 hn
    · exact ⟨fun _ => ⟨h3, h1, h2⟩, fun _ => rfl⟩
    · constructor
      · intro h
        exact h.elim
      · rintro ⟨hn, -, -⟩
        exact absurd hn h3
  · intro ps h
    exact parseLine_fields h

/-- C2 witness: the theorem applied to a well-formed 8-field line and
to the concrete invalid line `"ab\tcd"`. -/
theorem parseLine_invalid_iff_witness :
    ([str "a", str "b", str "c", str "d", str "e", str "f", str "g",
        str "h"] =
      splitOnChar '\t' (str "a\tb\tc\td\te\tf\tg\th") ∧
      ([str "a", str "b", str "c", str "d", str "e", str "f", str "g",
        str "h"] : List GoString).length = 8) ∧
    ((splitOnChar '\t' (str "ab\tcd")).length ≠ 8 ∧
      ¬((splitOnChar '\t' (str "ab\tcd")).length = 8 ∧
        (splitOnChar '\t' (str "ab\tcd")).getD 1 [] = [] ∧
        (splitOnChar '\t' (str "ab\tcd")).getD 2 [] = [] ∧
        (splitOnChar '\t' (str "ab\tcd")).getD 3 [] = [] ∧
        goContains ((splitOnChar '\t' (str "ab\tcd")).getD 7 [])
          pageMarker = true) ∧
      ¬((splitOnChar '\t' (str "ab\tcd")).length < 8 ∧
        goContains ((splitOnChar '\t' (str "ab\tcd")).getD 0 [])
          disclaimerMarker = true)) :=
  ⟨(parseLine_invalid_iff (str "a\tb\tc\td\te\tf\tg\th")).2 _ rfl,
    (parseLine_invalid_iff (str "ab\tcd")).1.mp rfl⟩

/-- C4 counterexample: a line whose tab-split fields are exactly
`["", "", "", "X", "Y", "Z", "W", "Page 2 of 3"]` is NOT recognized as
the page-footer sentinel — the code requires fields 1-3 to be empty, and
field 3 here is `"X"` — so `parseLine` returns it as a data record and
`getCSV` includes it in the assembled table. -/
theorem page_footer_claim_example_is_data :
    parseLine (str "\t\t\tX\tY\tZ\tW\tPage 2 of 3") =
      .fields [[], [], [], str "X", str "Y", str "Z", str "W",
        str "Page 2 of 3"] ∧
    getCSV [str "TRANSACTION HISTORY FOR\nCARD 99\nTRANSACTION TYPE\tLOCATION\tROUTE\n\t\t\tX\tY\tZ\tW\tPage 2 of 3"]
      = .ok (99, [recordHeader,
          [[], [], [], str "X", str "Y", str "Z", str "W",
            str "Page 2 of 3"]]) :=
  ⟨rfl, rfl⟩

/-- C4 amended: a line whose tab-split fields are exactly
`["", "", "", "", "Y", "Z", "W", "Page 2 of 3"]` (field 3 empty as well,
as the code requires fields 1-3 empty) is recognized by `parseLine` as
the page-footer end-of-table sentinel and is excluded from the
assembled table. -/
theorem page_footer_sentinel_excluded :
    parseLine (str "\t\t\t\tY\tZ\tW\tPage 2 of 3") = .eof ∧
    getCSV [str "TRANSACTION HISTORY FOR\nCARD 99\nTRANSACTION TYPE\tLOCATION\tROUTE\na\tb\tc\td\te\tf\tg\th\n\t\t\t\tY\tZ\tW\tPage 2 of 3"]
      = .ok (99, [recordHeader,
          [str "a", str "b", str "c", str "d", str "e", str "f", str "g",
            str "h"]]) :=
  ⟨rfl, rfl⟩

/-- C5: whenever `getCSV` succeeds, the returned table is the fixed
literal header row followed by all validated records in encountered
order (first page's rows before later pages', in per-page line order),
and every record in it has exactly 8 fields. -/
theorem getCSV_shape_and_order (pages : List GoString) (num : Int)
    (recs : List (List GoString)) (h : getCSV pages = .ok (num, recs)) :
    recs = recordHeader :: encounteredRecords pages ∧
      ∀ r ∈ recs, r.length = 8 := by
  have he := getCSV_ok_records h
  refine ⟨he, ?_⟩
  intro r hr
  rw [he] at hr
  rcases List.mem_cons.mp hr with h1 | h1
  · subst h1
    decide
  · exact encounteredRecords_length h1

/-- C5 witness: the theorem applied to a concrete two-page document. -/
theorem getCSV_shape_and_order_witness :
    getCSV [str "TRANSACTION HISTORY FOR\nCARD 1234567890\nTRANSACTION TYPE\tLOCATION\tROUTE\na\tb\tc\td\te\tf\tg\th",
        str "TRANSACTION TYPE\tLOCATION\tROUTE\np\tq\tr\ts\tt\tu\tv\tw"]
      = .ok (1234567890, [recordHeader,
          [str "a", str "b", str "c", str "d", str "e", str "f", str "g",
            str "h"],
          [str "p", str "q", str "r", str "s", str "t", str "u", str "v",
            str "w"]]) ∧
    ([recordHeader,
        [str "a", str "b", str "c", str "d", str "e", str "f", str "g",
          str "h"],
        [str "p", str "q", str "r", str "s", str "t", str "u", str "v",
          str "w"]] =
      recordHeader :: encounteredRecords
        [str "TRANSACTION HISTORY FOR\nCARD 1234567890\nTRANSACTION TYPE\tLOCATION\tROUTE\na\tb\tc\td\te\tf\tg\th",
          str "TRANSACTION TYPE\tLOCATION\tROUTE\np\tq\tr\ts\tt\tu\tv\tw"] ∧
      ∀ r ∈ [recordHeader,
          [str "a", str "b", str "c", str "d", str "e", str "f", str "g",
            str "h"],
          [str "p", str "q", str "r", str "s", str "t", str "u", str "v",
            str "w"]], r.length = 8) :=
  ⟨rfl, getCSV_shape_and_order _ 1234567890 _ rfl⟩

/-- C7 counterexample: with first-page line 1 equal to `"CARD "` (no
numeric token), the account number does NOT remain at the sentinel `-1`:
`strconv.ParseInt` assigns its failure value `0` to `num`, so `getCSV`
returns account number `0`. -/
theorem card_parse_failure_yields_zero :
    getCSV [str "TRANSACTION HISTORY FOR\nCARD \nTRANSACTION TYPE\tLOCATION\tROUTE"]
      = .ok (0, [recordHeader]) ∧ (0 : ℤ) ≠ -1 :=
  ⟨rfl, by decide⟩

/-- C7 amended: if first-page line 1 is `"CARD 1234567890"` the account
number parses to `1234567890`; if line 1 is `"CARD "` with no numeric
token, only a warning is issued, the account number becomes `0` (the
value `strconv.ParseInt` returns on a failed parse, overwriting the
`-1` sentinel), and record processing continues. -/
theorem account_number_parse :
    getCSV [str "TRANSACTION HISTORY FOR\nCARD 1234567890\nTRANSACTION TYPE\tLOCATION\tROUTE"]
      = .ok (1234567890, [recordHeader]) ∧
    getCSV [str "TRANSACTION HISTORY FOR\nCARD \nTRANSACTION TYPE\tLOCATION\tROUTE\na\tb\tc\td\te\tf\tg\th"]
      = .ok (0, [recordHeader,
          [str "a", str "b", str "c", str "d", str "e", str "f", str "g",
            str "h"]]) :=
  ⟨rfl, rfl⟩

/-- C10: whenever any stage fails (the upstream extraction stage or the
table assembly), `ParsePDF` returns the zero `TransactionData` (account
number 0, no records) alongside the error; in particular the account
number and records already computed by `getCSV` before its failure are
discarded. -/
theorem parsePDF_zero_on_failure {ε : Type} :
    (∀ r : Except ε (List GoString),
      (ParsePDF r).2 ≠ none → (ParsePDF r).1 = zeroTransactionData) ∧
    (∀ e : ε, ParsePDF (Except.error e : Except ε (List GoString)) =
      (zeroTransactionData, some (.extract e))) ∧
    (∀ (pages : List GoString) (num : Int) (line : GoString),
      getCSV pages = .error (num, line) →
      ParsePDF (Except.ok pages : Except ε (List GoString)) =
        (zeroTransactionData, some (.table num line))) := by
  refine ⟨?_, fun e => rfl, ?_⟩
  · intro r h
    match r with
    | .error e => rfl
    | .ok pages =>
      cases hg : getCSV pages with
      | error p =>
        obtain ⟨num, line⟩ := p
        simp [ParsePDF, hg]
      | ok p =>
        obtain ⟨num, recs⟩ := p
        exfalso
        exact h (by simp [ParsePDF, hg])
  · intro pages num line hg
    simp [ParsePDF, hg]

/-- C10 witness: the theorem applied to a concrete extraction failure
and to a concrete page list on which `getCSV` fails. -/
theorem parsePDF_zero_on_failure_witness :
    ParsePDF (Except.error () : Except Unit (List GoString)) =
      (zeroTransactionData, some (.extract ())) ∧
    getCSV [str "TRANSACTION HISTORY FOR\nCARD \nTRANSACTION TYPE\tLOCATION\tROUTE\nbad"]
      = .error (0, str "bad") ∧
    ParsePDF (Except.ok
        [str "TRANSACTION HISTORY FOR\nCARD \nTRANSACTION TYPE\tLOCATION\tROUTE\nbad"] :
        Except Unit (List GoString)) =
      (zeroTransactionData, some (.table 0 (str "bad"))) ∧
    (ParsePDF (Except.ok
        [str "TRANSACTION HISTORY FOR\nCARD \nTRANSACTION TYPE\tLOCATION\tROUTE\nbad"] :
        Except Unit (List GoString))).1 = zeroTransactionData :=
  ⟨(parsePDF_zero_on_failure (ε := Unit)).2.1 (),
    rfl,
    (parsePDF_zero_on_failure (ε := Unit)).2.2 _ 0 (str "bad") rfl,
    (parsePDF_zero_on_failure (ε := Unit)).1 _
      (fun hc => Option.noConfusion hc)⟩

/-- C3 counterexample: inside a text block, a `TJ` array element that is
neither a string nor a numeric adjustment (here a PDF name object) is
NOT a fatal error: the `switch` in `extractText` has no default case, so
the element is silently skipped and extraction succeeds with empty
output. -/
theorem tj_unknown_element_not_fatal :
    extractText [⟨"BT", []⟩, ⟨"TJ", [.PdfArray [.PdfName (str "F1")]]⟩] =
      .ok [] :=
  rfl

/-- C3 amended: inside a text block, a `TJ` first operand that is not an
array is a fatal `MalformedContentStream` error, while an array element
that is neither a string nor a numeric adjustment is silently skipped
(no output, no error). -/
theorem tj_nonarray_fatal_unknown_skipped :
    (∀ (st : TextState) (obj : PdfObject) (rest : List PdfObject),
      st.inText = true → (∀ elems, obj ≠ .PdfArray elems) →
      extractStep st ⟨"TJ", obj :: rest⟩ = .error (.invalidTJParam obj)) ∧
    (∀ (st : TextState) (elems : List PdfObject), st.inText = true →
      extractStep st ⟨"TJ", [.PdfArray elems]⟩ =
        .ok { st with txt := elems.foldl tjItem st.txt }) ∧
    (∀ txt s : GoString, tjItem txt (.PdfName s) = txt) ∧
    (∀ (txt : GoString) (b : Bool), tjItem txt (.PdfBool b) = txt) ∧
    (∀ txt : GoString, tjItem txt .PdfNull = txt) := by
  refine ⟨?_, ?_, fun txt s => rfl, fun txt b => rfl, fun txt => rfl⟩
  · intro st obj rest hin hne
    have h1 : extractStep st ⟨"TJ", obj :: rest⟩ = stepTJ st (obj :: rest) := by
      simp [extractStep, hin]
    rw [h1]
    unfold stepTJ
    rw [if_neg (by simp)]
    cases obj with
    | PdfArray elems => exact absurd rfl (hne elems)
    | PdfString s => rfl
    | PdfInt n => rfl
    | PdfFloat q => rfl
    | PdfName s => rfl
    | PdfBool b => rfl
    | PdfNull => rfl
  · intro st elems hin
    have h1 : extractStep st ⟨"TJ", [.PdfArray elems]⟩ =
        stepTJ st [.PdfArray elems] := by
      simp [extractStep, hin]
    rw [h1]
    unfold stepTJ
    rw [if_neg (by simp)]
    rfl

/-- C3 witness: the amended theorem applied at a concrete in-text state,
a concrete non-array operand and concrete unknown array elements. -/
theorem tj_nonarray_fatal_unknown_skipped_witness :
    extractStep ⟨-1, -1, true, []⟩ ⟨"TJ", [.PdfName (str "F1")]⟩ =
      .error (.invalidTJParam (.PdfName (str "F1"))) ∧
    extractStep ⟨-1, -1, true, []⟩ ⟨"TJ", [.PdfArray [.PdfName (str "F1")]]⟩ =
      .ok { xPos := -1, yPos := -1, inText := true,
            txt := [PdfObject.PdfName (str "F1")].foldl tjItem [] } ∧
    tjItem (str "AB") (.PdfName (str "F1")) = str "AB" ∧
    tjItem (str "AB") (.PdfBool true) = str "AB" ∧
    tjItem (str "AB") .PdfNull = str "AB" :=
  ⟨tj_nonarray_fatal_unknown_skipped.1 ⟨-1, -1, true, []⟩
      (.PdfName (str "F1")) [] rfl (fun _ h => PdfObject.noConfusion h),
    tj_nonarray_fatal_unknown_skipped.2.1 ⟨-1, -1, true, []⟩
      [.PdfName (str "F1")] rfl,
    tj_nonarray_fatal_unknown_skipped.2.2.1 (str "AB") (str "F1"),
    tj_nonarray_fatal_unknown_skipped.2.2.2.1 (str "AB") true,
    tj_nonarray_fatal_unknown_skipped.2.2.2.2 (str "AB")⟩

/-- C6: inside a text block, a numeric spacing adjustment in a `TJ`
array strictly below `-100` appends exactly one literal space between
the surrounding strings, and an adjustment at or above `-100` appends
nothing — for float and integer adjustments alike. -/
theorem tj_spacing_threshold (st : TextState) (a b : GoString)
    (q : ℚ) (n : ℤ) (h : st.inText = true) :
    extractStep st ⟨"TJ",
        [.PdfArray [.PdfString a, .PdfFloat q, .PdfString b]]⟩ =
      .ok { st with
        txt := ((st.txt ++ a) ++ (if q < -100 then [' '] else [])) ++ b } ∧
    extractStep st ⟨"TJ",
        [.PdfArray [.PdfString a, .PdfInt n, .PdfString b]]⟩ =
      .ok { st with
        txt := ((st.txt ++ a) ++ (if n < -100 then [' '] else [])) ++ b } := by
  constructor
  · by_cases hq : q < -100 <;>
      simp [extractStep, h, stepTJ, tjItem, hq]
  · by_cases hn : n < -100 <;>
      simp [extractStep, h, stepTJ, tjItem, hn]

/-- C6 witness: the theorem applied at a concrete state with the
adjustments `-150` (one space inserted) and `-50` (nothing inserted). -/
theorem tj_spacing_threshold_witness :
    extractStep ⟨-1, -1, true, []⟩ ⟨"TJ",
        [.PdfArray [.PdfString (str "AB"), .PdfFloat (-150),
          .PdfString (str "CD")]]⟩ =
      .ok { xPos := -1, yPos := -1, inText := true,
            txt := ((([] : GoString) ++ str "AB") ++
              (if (-150 : ℚ) < -100 then [' '] else [])) ++ str "CD" } ∧
    extractStep ⟨-1, -1, true, []⟩ ⟨"TJ",
        [.PdfArray [.PdfString (str "AB"), .PdfInt (-50),
          .PdfString (str "CD")]]⟩ =
      .ok { xPos := -1, yPos := -1, inText := true,
            txt := ((([] : GoString) ++ str "AB") ++
              (if (-50 : ℤ) < -100 then [' '] else [])) ++ str "CD" } :=
  ⟨(tj_spacing_threshold ⟨-1, -1, true, []⟩ (str "AB") (str "CD")
      (-150) (-50) rfl).1,
    (tj_spacing_threshold ⟨-1, -1, true, []⟩ (str "AB") (str "CD")
      (-150) (-50) rfl).2⟩

end Clipper
